import Mathlib

/-!
Shallow embedding of the duckduckgo-mcp error-classification, fallback and
formatting layer (src/duckduckgo_mcp/duckduckgo_search.py, jina_fetch.py,
exceptions.py), together with proofs of the specification claims about it.

Python strings are Lean `String`s; Python dicts with string keys and values
are association lists; Python `Optional` values are `Option`; a Python value
that may be a string, an int or None is a `PyVal`.  Raising an exception is
modelled with `Except` or with an explicit outcome type.  Network calls are
abstracted as outcome parameters; the pure classification, validation and
formatting logic is translated line by line from the source.
-/

/-- `charsStartWith p l` : `p` is a prefix of the character list `l`. -/
def charsStartWith : List Char → List Char → Bool
  | [], _ => true
  | _ :: _, [] => false
  | p :: ps, c :: cs => p == c && charsStartWith ps cs

/-- `charsContain p l` : the character list `p` occurs contiguously in `l`. -/
def charsContain (pat : List Char) : List Char → Bool
  | [] => pat.isEmpty
  | c :: cs => charsStartWith pat (c :: cs) || charsContain pat cs

/-- Python `pat in s` on strings: contiguous substring test. -/
def strContains (s pat : String) : Bool :=
  charsContain pat.data s.data

/-- Python `s.lower()` (ASCII case folding, as the source relies on). -/
def pyLower (s : String) : String :=
  String.mk (s.data.map Char.toLower)

/-- Python `any(indicator in s for indicator in pats)`. -/
def containsAny (s : String) (pats : List String) : Bool :=
  pats.any (fun p => strContains s p)

/-- A Python value that may be a string, an integer or None
(the argument types the validators must cope with). -/
inductive PyVal where
  | pyNone
  | pyStr (s : String)
  | pyInt (n : Int)
deriving DecidableEq

/-- Python truthiness of a `PyVal`. -/
def pyTruthy : PyVal → Bool
  | .pyNone => false
  | .pyStr s => s != ""
  | .pyInt n => n != 0

/-- Python `isinstance(v, str)`. -/
def isPyStr : PyVal → Bool
  | .pyStr _ => true
  | _ => false

/-- Python `isinstance(v, int)`. -/
def isPyInt : PyVal → Bool
  | .pyInt _ => true
  | _ => false

/-- Python `str(v)`. -/
def pyStrOf : PyVal → String
  | .pyNone => "None"
  | .pyStr s => s
  | .pyInt n => toString n

/-- Python `repr(v)` (as far as the modelled values need). -/
def pyReprOf : PyVal → String
  | .pyNone => "None"
  | .pyStr s => "\x27" ++ s ++ "\x27"
  | .pyInt n => toString n

/-- Python `s.strip()`: drop whitespace from both ends. -/
def pyTrim (s : String) : String :=
  String.mk (((s.data.dropWhile Char.isWhitespace).reverse.dropWhile
    Char.isWhitespace).reverse)

/-- Value of a list of decimal digits, `none` when empty or not all digits. -/
def digitsVal (cs : List Char) : Option Nat :=
  if cs.isEmpty then none
  else if cs.all Char.isDigit then
    some (cs.foldl (fun a c => a * 10 + (c.toNat - 48)) 0)
  else none

/-- Python `int(s)` on a string: strip whitespace, optional sign, decimal
digits; `none` models the `ValueError` branch. -/
def pyIntOfStr (s : String) : Option Int :=
  match (pyTrim s).data with
  | [] => none
  | c :: rest =>
    if c == '-' then (digitsVal rest).map (fun n => -(n : Int))
    else if c == '+' then (digitsVal rest).map (fun n => (n : Int))
    else (digitsVal (c :: rest)).map (fun n => (n : Int))

/-- Lookup in an association-list dict, with a default
(Python `d.get(k, default)` for string values). -/
def dictGet (d : List (String × String)) (k dflt : String) : String :=
  match d.find? (fun kv => kv.1 == k) with
  | some kv => kv.2
  | none => dflt

/-- Python `k in d` for an association-list dict. -/
def dictHasKey (d : List (String × String)) (k : String) : Bool :=
  (d.find? (fun kv => kv.1 == k)).isSome

/-- exceptions.py `ErrorCategory`. -/
inductive ErrorCategory where
  | network
  | service
  | validation
  | content
  | unknown
deriving DecidableEq

/-- The concrete exception class of a taxonomy member (exceptions.py class
hierarchy, flattened to the leaf classes the request path constructs). -/
inductive ErrKind where
  | networkError
  | connectionError
  | timeoutError
  | dnsError
  | httpError
  | rateLimitError
  | serviceUnavailableError
  | validationError
deriving DecidableEq

/-- exceptions.py `MCPError` as the data every raised taxonomy member
carries: class tag, message, stable code, category, effective guidance
(instance guidance when supplied, class default otherwise), and the
auxiliary `status_code` / `retry_after` fields of the HTTP family. -/
structure MCPError where
  kind : ErrKind
  message : String
  errorCode : String
  category : ErrorCategory
  guidance : String
  statusCode : Option Int
  retryAfter : Option Int
deriving DecidableEq

/-- exceptions.py `NetworkError.default_guidance`. -/
def networkDefaultGuidance : String :=
  "Check your internet connection and try again. If the problem persists, the remote server may be temporarily unavailable."

/-- exceptions.py `ConnectionError.default_guidance`. -/
def connectionDefaultGuidance : String :=
  "The connection was refused or reset. This could mean:\n  • The server is not accepting connections\n  • A firewall is blocking the request\n  • The server is overloaded\nTry again in a few moments, or check if the service is available."

/-- exceptions.py `TimeoutError.default_guidance`. -/
def timeoutDefaultGuidance : String :=
  "The request timed out waiting for a response. This could be due to:\n  • Slow network connection\n  • Server under heavy load\n  • Large response size\nTry again later, or check your network connection."

/-- exceptions.py `DNSError.default_guidance`. -/
def dnsDefaultGuidance : String :=
  "Could not resolve the hostname. Please check:\n  • The URL is spelled correctly\n  • Your DNS settings are working\n  • The domain exists and is accessible\nTry using a different DNS server or verify the URL."

/-- exceptions.py `HTTPError.default_guidance`. -/
def httpDefaultGuidance : String :=
  "The server returned an error response. This may be a temporary issue.\nTry again in a few moments."

/-- exceptions.py `RateLimitError.default_guidance`. -/
def rateLimitDefaultGuidance : String :=
  "You\x27ve made too many requests in a short period. Please:\n  • Wait 30-60 seconds before trying again\n  • Reduce the frequency of your requests\n  • Consider adding delays between consecutive requests\nThe rate limit typically resets after a brief waiting period."

/-- exceptions.py `RateLimitError.guidance` computed text when
`retry_after` is available and no instance guidance was supplied. -/
def rateLimitRetryGuidance (n : Int) : String :=
  "You\x27ve been rate limited. Please wait " ++ toString n ++ " seconds before trying again.\n  • Reduce the frequency of your requests\n  • Consider adding delays between consecutive requests"

/-- exceptions.py `ServiceUnavailableError.default_guidance`. -/
def serviceUnavailableDefaultGuidance : String :=
  "The service is temporarily unavailable. This usually means:\n  • The service is undergoing maintenance\n  • The service is experiencing high load\n  • There\x27s a temporary outage\nPlease try again in a few minutes. If the problem persists, check the service\x27s status page."

/-- exceptions.py `ValidationError.default_guidance`. -/
def validationDefaultGuidance : String :=
  "The provided input is invalid. Please check:\n  • All required parameters are provided\n  • Values are in the expected format\n  • Values are within acceptable ranges\nRefer to the documentation for valid input examples."

/-- Constructor of exceptions.py `NetworkError(message, guidance=...)`. -/
def mkNetworkError (message : String) (guidance : Option String) : MCPError :=
  { kind := .networkError, message := message, errorCode := "NETWORK_ERROR",
    category := .network,
    guidance := guidance.getD networkDefaultGuidance,
    statusCode := none, retryAfter := none }

/-- Constructor of exceptions.py `ConnectionError(message)`. -/
def mkConnectionError (message : String) : MCPError :=
  { kind := .connectionError, message := message, errorCode := "CONNECTION_ERROR",
    category := .network,
    guidance := connectionDefaultGuidance,
    statusCode := none, retryAfter := none }

/-- Constructor of exceptions.py `TimeoutError(message, guidance=...)`. -/
def mkTimeoutError (message : String) (guidance : Option String) : MCPError :=
  { kind := .timeoutError, message := message, errorCode := "TIMEOUT_ERROR",
    category := .network,
    guidance := guidance.getD timeoutDefaultGuidance,
    statusCode := none, retryAfter := none }

/-- Constructor of exceptions.py `DNSError(message)`. -/
def mkDNSError (message : String) : MCPError :=
  { kind := .dnsError, message := message, errorCode := "DNS_ERROR",
    category := .network,
    guidance := dnsDefaultGuidance,
    statusCode := none, retryAfter := none }

/-- Constructor of exceptions.py `HTTPError(message, status_code=..., guidance=...)`. -/
def mkHTTPError (message : String) (status_code : Option Int) (guidance : Option String) : MCPError :=
  { kind := .httpError, message := message, errorCode := "HTTP_ERROR",
    category := .service,
    guidance := guidance.getD httpDefaultGuidance,
    statusCode := status_code, retryAfter := none }

/-- Constructor of exceptions.py
`RateLimitError(message, retry_after=..., status_code=..., guidance=...)`:
`status_code` defaults to 429, effective guidance falls back to the
`retry_after`-specific text and then to the class default. -/
def mkRateLimitError (message : String) (retry_after : Option Int)
    (status_code : Option Int) (guidance : Option String) : MCPError :=
  { kind := .rateLimitError, message := message, errorCode := "RATE_LIMIT",
    category := .service,
    guidance :=
      match guidance with
      | some g => g
      | none =>
        match retry_after with
        | some n => rateLimitRetryGuidance n
        | none => rateLimitDefaultGuidance,
    statusCode := some (status_code.getD 429), retryAfter := retry_after }

/-- Constructor of exceptions.py
`ServiceUnavailableError(message, status_code=..., guidance=...)`:
`status_code` defaults to 503. -/
def mkServiceUnavailableError (message : String) (status_code : Option Int)
    (guidance : Option String) : MCPError :=
  { kind := .serviceUnavailableError, message := message,
    errorCode := "SERVICE_UNAVAILABLE", category := .service,
    guidance := guidance.getD serviceUnavailableDefaultGuidance,
    statusCode := some (status_code.getD 503), retryAfter := none }

/-- Constructor of exceptions.py `ValidationError(message, guidance=...)`. -/
def mkValidationError (message : String) (guidance : Option String) : MCPError :=
  { kind := .validationError, message := message, errorCode := "VALIDATION_ERROR",
    category := .validation,
    guidance := guidance.getD validationDefaultGuidance,
    statusCode := none, retryAfter := none }

/-- duckduckgo_search.py `_format_search_result`: transform a raw DuckDuckGo
record (a dict) to the standard output dict.  The source function takes only
the raw record and emits title, url and snippet. -/
def _format_search_result (result : List (String × String)) : List (String × String) :=
  [("title", dictGet result "title" ""),
   ("url", dictGet result "href" ""),
   ("snippet", dictGet result "body" "")]

/-- The formatting step of duckduckgo_search.py `_execute_search`
(line `return [_format_search_result(r) for r in results]`), applied to the
raw record list the provider returned. -/
def formatMany (results : List (List (String × String))) : List (List (String × String)) :=
  results.map _format_search_result

/-- An upstream exception as the search module sees it: its `str()` text and
whether it is a `DDGSException` (the typed exception of the search client,
which the fallback handler catches separately from bare `Exception`). -/
structure PyException where
  isDDGS : Bool
  text : String
deriving DecidableEq

/-- Python `f" for query: '{query}'" if query else ""` style context. -/
def optContext (pre post : String) : Option String → String
  | some s => if s == "" then "" else pre ++ s ++ post
  | none => ""

/-- duckduckgo_search.py `rate_limit_indicators`. -/
def rate_limit_indicators : List String :=
  ["rate", "ratelimit", "too many requests", "429", "blocked",
   "temporarily blocked", "please wait", "try again later", "exceeded",
   "throttle"]

/-- duckduckgo_search.py `timeout_indicators`. -/
def timeout_indicators : List String :=
  ["timeout", "timed out", "time out", "request timeout"]

/-- duckduckgo_search.py `network_indicators`. -/
def network_indicators : List String :=
  ["connection", "network", "connect failed", "unable to connect",
   "no internet", "dns", "resolve", "unreachable", "refused"]

/-- duckduckgo_search.py `service_indicators`. -/
def service_indicators : List String :=
  ["503", "service unavailable", "unavailable", "maintenance",
   "temporarily", "down"]

/-- duckduckgo_search.py `backend_indicators`. -/
def backend_indicators : List String :=
  ["backend", "search backend", "api error"]

/-- duckduckgo_search.py `empty_indicators`. -/
def empty_indicators : List String :=
  ["no results", "empty", "nothing found"]

/-- Guidance of the rate-limit branch of `_classify_search_error`. -/
def searchRateLimitGuidance : String :=
  "DuckDuckGo has rate limited your requests. To resolve this:\n  • Wait 30-60 seconds before trying again\n  • Reduce the frequency of search requests\n  • Consider adding delays between consecutive searches\n  • If using automated scripts, implement backoff strategies\nThe rate limit typically resets after a brief waiting period."

/-- Guidance of the timeout branch of `_classify_search_error`. -/
def searchTimeoutGuidance : String :=
  "The search request timed out. This could be due to:\n  • Slow network connection\n  • DuckDuckGo servers under heavy load\n  • Complex or broad search query\nTry:\n  • Simplifying your search query\n  • Reducing max_results\n  • Waiting a moment and trying again"

/-- Guidance of the network branch of `_classify_search_error`. -/
def searchNetworkGuidance : String :=
  "Could not connect to DuckDuckGo. Please check:\n  • Your internet connection is working\n  • DuckDuckGo is accessible from your network\n  • No firewall or proxy is blocking the connection\nTry again in a few moments."

/-- Guidance of the service-unavailable branch of `_classify_search_error`. -/
def searchServiceGuidance : String :=
  "DuckDuckGo is temporarily unavailable. This could mean:\n  • The service is undergoing maintenance\n  • There\x27s a temporary outage\n  • The service is experiencing high load\nPlease try again in a few minutes."

/-- Guidance of the backend branch of `_classify_search_error`. -/
def searchBackendGuidance : String :=
  "The search backend encountered an error. The tool will attempt to use a fallback backend automatically.\nIf the error persists:\n  • The query may be too complex\n  • DuckDuckGo may be experiencing issues\n  • Try rephrasing your search query"

/-- Guidance of the empty-results branch of `_classify_search_error`. -/
def searchEmptyGuidance : String :=
  "The search returned no results. This could mean:\n  • The query is too specific or unusual\n  • DuckDuckGo couldn\x27t find matching content\n  • There may be a temporary issue\nTry:\n  • Rephrasing your search query\n  • Using broader search terms\n  • Checking spelling"

/-- Guidance of the generic branch of `_classify_search_error`. -/
def searchGenericGuidance : String :=
  "An unexpected search error occurred. Please:\n  • Check your internet connection\n  • Try a different search query\n  • Wait a moment and try again\nIf the problem persists, DuckDuckGo may be experiencing issues."

/-- duckduckgo_search.py `_classify_search_error`: ordered, first-match-wins
substring scan of the lower-cased exception text against the curated
indicator sets, falling through to a generic network error that embeds the
original exception text. -/
def _classify_search_error (error : PyException) (query : Option String)
    (backend : Option String) : MCPError :=
  let error_str := pyLower error.text
  let query_context := optContext " for query: \x27" "\x27" query
  let backend_context := optContext " using backend \x27" "\x27" backend
  if containsAny error_str rate_limit_indicators then
    mkRateLimitError
      ("Rate limited" ++ query_context ++ ". DuckDuckGo has temporarily blocked requests.")
      none none (some searchRateLimitGuidance)
  else if containsAny error_str timeout_indicators then
    mkTimeoutError
      ("Search timed out" ++ query_context ++ backend_context ++ ". The search took too long to complete.")
      (some searchTimeoutGuidance)
  else if containsAny error_str network_indicators then
    mkNetworkError
      ("Network error" ++ query_context ++ ". Unable to connect to DuckDuckGo.")
      (some searchNetworkGuidance)
  else if containsAny error_str service_indicators then
    mkServiceUnavailableError
      ("Service unavailable" ++ query_context ++ ". DuckDuckGo is temporarily unavailable.")
      none (some searchServiceGuidance)
  else if containsAny error_str backend_indicators then
    mkNetworkError
      ("Search backend error" ++ query_context ++ backend_context ++ ".")
      (some searchBackendGuidance)
  else if containsAny error_str empty_indicators then
    mkNetworkError
      ("No results returned" ++ query_context ++ ".")
      (some searchEmptyGuidance)
  else
    mkNetworkError
      ("Search error" ++ query_context ++ backend_context ++ ": " ++ error.text)
      (some searchGenericGuidance)

/-- Outcome of the single fallback attempt against the brave backend
(the network call inside `_try_fallback_search`, abstracted): it either
returns formatted results, raises the typed `DDGSException` of the search
client, or raises some other exception class. -/
inductive FallbackOutcome where
  | success (results : List (List (String × String)))
  | ddgsFailure (text : String)
  | otherFailure (text : String)
deriving DecidableEq

/-- What a call to `_try_fallback_search` does: return results or raise. -/
inductive SearchOutcome where
  | returns (results : List (List (String × String)))
  | raises (e : MCPError)
deriving DecidableEq

/-- Guidance of the combined both-backends failure in `_try_fallback_search`. -/
def bothBackendsGuidance : String :=
  "Both search backends failed. This could indicate:\n  • DuckDuckGo may be experiencing widespread issues\n  • Your network connection may be unstable\n  • You may be rate limited across backends\nPlease try:\n  • Waiting a few minutes before trying again\n  • Checking your internet connection\n  • Simplifying your search query"

/-- Guidance of the unexpected-fallback-failure branch in `_try_fallback_search`. -/
def unexpectedFallbackGuidance : String :=
  "An unexpected error occurred during search. Please:\n  • Check your internet connection\n  • Wait a moment and try again\n  • Try a different search query\nIf the problem persists, DuckDuckGo may be experiencing issues."

/-- duckduckgo_search.py `_try_fallback_search`: suppression rules, the
single retry against the brave backend (abstracted by `attempt`), and the
combined error raised when the retry also fails.  The second component
counts the additional `_execute_search` calls made against the alternate
backend. -/
def _try_fallback_search (query : String) (original_error : MCPError)
    (attempt : FallbackOutcome) : SearchOutcome × Nat :=
  if original_error.kind = ErrKind.rateLimitError then
    (.raises original_error, 0)
  else if strContains (pyLower original_error.message) "backend" then
    (.raises original_error, 0)
  else
    match attempt with
    | .success results => (.returns results, 1)
    | .ddgsFailure t =>
      let fallback_error := _classify_search_error ⟨true, t⟩ (some query) (some "brave")
      (.raises (mkNetworkError
        ("Search failed with both backends. Primary (duckduckgo): "
          ++ original_error.message ++ ". Fallback (brave): " ++ fallback_error.message)
        (some bothBackendsGuidance)), 1)
    | .otherFailure t =>
      let _fallback_error := _classify_search_error ⟨false, t⟩ (some query) (some "brave")
      (.raises (mkNetworkError
        ("Search failed unexpectedly. Primary error: " ++ original_error.message
          ++ ". Fallback error: " ++ t)
        (some unexpectedFallbackGuidance)), 1)

/-- An HTTP response object as far as `_classify_request_error` inspects it:
status code and response headers. -/
structure HTTPResponse where
  status_code : Int
  headers : List (String × String)
deriving DecidableEq

/-- `response.headers.get(k)`. -/
def headersGet (headers : List (String × String)) (k : String) : Option String :=
  match headers.find? (fun kv => kv.1 == k) with
  | some kv => some kv.2
  | none => none

/-- A `requests` exception as `_classify_request_error` dispatches on it:
the constructors mirror the exception classes the source tests with
`isinstance`, in particular `Timeout`, `SSLError`, `ConnectionError`
(`sslExc` is also a connection error in the client hierarchy),
`HTTPError` (optionally carrying a response), and any other
`RequestException`. -/
inductive RequestExc where
  | timeoutExc (text : String)
  | sslExc (text : String)
  | connectionExc (text : String)
  | httpExc (text : String) (response : Option HTTPResponse)
  | otherExc (text : String)
deriving DecidableEq

/-- `str(error)` of a `requests` exception. -/
def RequestExc.text : RequestExc → String
  | .timeoutExc t => t
  | .sslExc t => t
  | .connectionExc t => t
  | .httpExc t _ => t
  | .otherExc t => t

/-- `isinstance(error, requests.exceptions.Timeout)`. -/
def isTimeoutExc : RequestExc → Bool
  | .timeoutExc _ => true
  | _ => false

/-- `isinstance(error, requests.exceptions.SSLError)`. -/
def isSSLExc : RequestExc → Bool
  | .sslExc _ => true
  | _ => false

/-- `isinstance(error, requests.exceptions.ConnectionError)`: in the
`requests` hierarchy `SSLError` inherits from `ConnectionError`, so an
SSL-typed exception also answers true here. -/
def isConnectionExc : RequestExc → Bool
  | .sslExc _ => true
  | .connectionExc _ => true
  | _ => false

/-- `isinstance(error, requests.exceptions.HTTPError)`. -/
def isHTTPExc : RequestExc → Bool
  | .httpExc _ _ => true
  | _ => false

/-- `error.response` of an HTTP-error exception (`none` otherwise). -/
def responseOf : RequestExc → Option HTTPResponse
  | .httpExc _ r => r
  | _ => none

/-- jina_fetch.py DNS-failure indicator substrings. -/
def dns_indicators : List String :=
  ["nodename nor servname provided", "name or service not known",
   "getaddrinfo failed", "failed to resolve", "dns",
   "temporary failure in name resolution"]

/-- Guidance of the SSL/TLS branch of `_classify_request_error`. -/
def fetchSSLGuidance : String :=
  "There was a problem with the secure connection. This could mean:\n  • The server\x27s SSL certificate is invalid or expired\n  • There\x27s a certificate chain issue\n  • A proxy or firewall is interfering with the connection\nVerify the URL uses a valid SSL certificate."

/-- Guidance of the 404 branch of `_classify_request_error`. -/
def fetchNotFoundGuidance : String :=
  "The URL may be incorrect or the page may have been removed.\n  • Verify the URL is correct\n  • Check if the page has moved to a new location\n  • Ensure the resource still exists"

/-- Guidance of the 403 branch of `_classify_request_error`. -/
def fetchForbiddenGuidance : String :=
  "The server refused to grant access. This could mean:\n  • The resource requires authentication\n  • Your IP may be blocked\n  • The site restricts automated access\nTry accessing the URL directly in a browser to verify."

/-- Guidance of the 5xx branch of `_classify_request_error`. -/
def fetchServerErrorGuidance : String :=
  "The server experienced an error while processing the request.\n  • Wait a few moments and try again\n  • The issue is on the server side, not your request\n  • Check if the service has a status page for outage information"

/-- Guidance of the generic branch of `_classify_request_error`. -/
def fetchGenericGuidance : String :=
  "An unexpected network error occurred. Please:\n  • Check your internet connection\n  • Verify the URL is correct\n  • Try again in a few moments"

/-- jina_fetch.py `_classify_request_error`: ordered `isinstance` dispatch
(timeout, then SSL, then connection with a DNS substring scan, then HTTP
with a status-code table and `Retry-After` parsing), falling through to a
generic network error that embeds the original exception text. -/
def _classify_request_error (error : RequestExc) (url : Option String) : MCPError :=
  let url_context := optContext " for URL: " "" url
  if isTimeoutExc error then
    mkTimeoutError
      ("Request timed out" ++ url_context ++ ". The server took too long to respond.")
      none
  else if isSSLExc error then
    mkNetworkError
      ("SSL/TLS error" ++ url_context ++ ". Could not establish a secure connection.")
      (some fetchSSLGuidance)
  else if isConnectionExc error then
    let error_str := pyLower error.text
    if containsAny error_str dns_indicators then
      mkDNSError
        ("Could not resolve hostname" ++ url_context ++ ". The domain name could not be found.")
    else
      mkConnectionError
        ("Connection failed" ++ url_context ++ ". Unable to establish a connection to the server.")
  else if isHTTPExc error then
    let status_code : Option Int := (responseOf error).map HTTPResponse.status_code
    if status_code = some 429 then
      let retry_after : Option Int :=
        match responseOf error with
        | none => none
        | some resp =>
          match headersGet resp.headers "Retry-After" with
          | none => none
          | some h => if h == "" then none else pyIntOfStr h
      mkRateLimitError
        ("Rate limited" ++ url_context ++ ". Too many requests to the service.")
        retry_after status_code none
    else if status_code = some 503 then
      mkServiceUnavailableError
        ("Service unavailable" ++ url_context ++ ". The server is temporarily unavailable.")
        status_code none
    else if status_code = some 404 then
      mkHTTPError
        ("Not found" ++ url_context ++ ". The requested resource does not exist.")
        status_code (some fetchNotFoundGuidance)
    else if status_code = some 403 then
      mkHTTPError
        ("Access forbidden" ++ url_context ++ ". You don\x27t have permission to access this resource.")
        status_code (some fetchForbiddenGuidance)
    else if (match status_code with
             | some sc => sc != 0 && 500 ≤ sc && sc < 600
             | none => false) then
      mkHTTPError
        ("Server error" ++ url_context ++ ". The server encountered an internal error.")
        status_code (some fetchServerErrorGuidance)
    else
      mkHTTPError
        ("HTTP error" ++ url_context ++ ": " ++
          (match status_code with
           | some sc => toString sc
           | none => "None"))
        status_code none
  else
    mkNetworkError
      ("Network error" ++ url_context ++ ": " ++ error.text)
      (some fetchGenericGuidance)

/-- duckduckgo_search.py `valid_safesearch`. -/
def valid_safesearch : List String := ["on", "moderate", "off"]

/-- Guidance of the query branch of `_validate_search_params`. -/
def validateQueryGuidance : String :=
  "Please provide a valid search query:\n  • The query must be a text string\n  • The query cannot be empty\nExample: \x27python web scraping tutorial\x27"

/-- Guidance of the max_results branch of `_validate_search_params`. -/
def validateMaxResultsGuidance : String :=
  "The max_results parameter must be a positive integer:\n  • Valid values: 1, 5, 10, 20, etc.\n  • Default value is 5 if not specified\nExample: max_results=10"

/-- duckduckgo_search.py `_validate_search_params`: hard validation of
query and max_results (raising `ValidationError`, modelled as `Except`),
soft normalization of safesearch to "moderate" when unrecognized. -/
def _validate_search_params (query : PyVal) (max_results : PyVal)
    (safesearch : String) : Except MCPError String :=
  if !(pyTruthy query) || !(isPyStr query) then
    .error (mkValidationError
      "Search query is required and must be a non-empty string."
      (some validateQueryGuidance))
  else if !(isPyInt max_results) ||
      (match max_results with
       | .pyInt n => n ≤ 0
       | _ => false) then
    .error (mkValidationError
      ("Invalid max_results value: " ++ pyReprOf max_results ++ ". Must be a positive integer.")
      (some validateMaxResultsGuidance))
  else if !(valid_safesearch.contains safesearch) then
    .ok "moderate"
  else
    .ok safesearch

/-- Python `type(v).__name__`. -/
def pyTypeName : PyVal → String
  | .pyNone => "NoneType"
  | .pyStr _ => "str"
  | .pyInt _ => "int"

/-- What the validation prefix of the public tool `duckduckgo_search`
does before any network call: either raise a `ValidationError`, or proceed
to `search_duckduckgo` with the coerced max_results and the normalized
output_format. -/
inductive ToolPhase where
  | raiseValidation (e : MCPError)
  | callSearch (max_results : Int) (output_format : String)
deriving DecidableEq

/-- Guidance of the missing-query branch of the tool `duckduckgo_search`. -/
def toolQueryGuidance : String :=
  "The \x27query\x27 parameter is required. Please provide a search query.\nExample: duckduckgo_search(query=\x27python web scraping tutorial\x27)"

/-- Guidance of the max_results coercion-failure branch of the tool. -/
def toolCoerceGuidance (max_results : PyVal) : String :=
  "The \x27max_results\x27 parameter must be a valid positive integer.\n  • Valid values: 1, 5, 10, 20, etc.\n  • Default value is 5 if not specified\nYou provided: \x27" ++ pyStrOf max_results ++ "\x27 (type: " ++ pyTypeName max_results ++ ")"

/-- Guidance of the max_results range-failure branch of the tool. -/
def toolRangeGuidance (n : Int) : String :=
  "The \x27max_results\x27 parameter must be a positive integer.\n  • Valid values: 1, 5, 10, 20, etc.\n  • Default value is 5 if not specified\nYou provided: " ++ toString n

/-- Guidance of the output_format-failure branch of the tool. -/
def toolFormatGuidance (output_format : String) : String :=
  "The \x27output_format\x27 parameter accepts two values:\n  • \x27json\x27 (default) - Returns results as a list of dictionaries\n  • \x27text\x27 - Returns results as LLM-friendly formatted text\nYou provided: \x27" ++ output_format ++ "\x27"

/-- duckduckgo_search.py `duckduckgo_search` (MCP tool), the validation
phase preceding the `search_duckduckgo` call: query presence check,
max_results coercion (`int(...)` on non-int input) and range check, and
output_format normalization (`output_format.lower() if output_format else
"json"`) with the json/text membership check. -/
def duckduckgo_search_entry (query : PyVal) (max_results : PyVal)
    (output_format : String) : ToolPhase :=
  if !(pyTruthy query) then
    .raiseValidation (mkValidationError
      "Missing required parameter: query" (some toolQueryGuidance))
  else
    let coerced : Except MCPError Int :=
      match max_results with
      | .pyInt n => .ok n
      | .pyStr s =>
        match pyIntOfStr s with
        | some n => .ok n
        | none => .error (mkValidationError
            ("Invalid max_results: \x27" ++ pyStrOf max_results
              ++ "\x27. max_results must be a positive integer.")
            (some (toolCoerceGuidance max_results)))
      | .pyNone => .error (mkValidationError
          ("Invalid max_results: \x27" ++ pyStrOf max_results
            ++ "\x27. max_results must be a positive integer.")
          (some (toolCoerceGuidance max_results)))
    match coerced with
    | .error e => .raiseValidation e
    | .ok n =>
      if n ≤ 0 then
        .raiseValidation (mkValidationError
          ("Invalid max_results: " ++ toString n ++ ". max_results must be a positive integer.")
          (some (toolRangeGuidance n)))
      else
        let output_format := if output_format == "" then "json" else pyLower output_format
        if !(output_format == "json" || output_format == "text") then
          .raiseValidation (mkValidationError
            ("Invalid output_format: \x27" ++ output_format
              ++ "\x27. output_format must be \x27json\x27 or \x27text\x27.")
            (some (toolFormatGuidance output_format)))
        else
          .callSearch n output_format

/-- Python `s[:n]` for an `Int` bound `n` (negative bounds count from the
end, as Python slices do). -/
def pySliceTo (s : String) (n : Int) : String :=
  if 0 ≤ n then ⟨s.data.take n.toNat⟩
  else ⟨s.data.take ((s.length : Int) + n).toNat⟩

/-- Python truthiness of an `Optional[int]`. -/
def pyTruthyOptInt : Option Int → Bool
  | none => false
  | some n => n != 0

/-- Python truthiness of an optional string value. -/
def pyTruthyOptStr : Option String → Bool
  | none => false
  | some s => s != ""

/-- jina_fetch.py `_truncate_content`: truncate content when `max_length`
is truthy and exceeded (`if max_length and len(content) > max_length`). -/
def _truncate_content (content : String) (max_length : Option Int) : String :=
  if pyTruthyOptInt max_length
      && decide ((content.length : Int) > max_length.getD 0) then
    pySliceTo content (max_length.getD 0) ++ "... (content truncated)"
  else content

/-- The parsed JSON body of a Jina Reader response: the `content` field (a
string, when present) and the remaining provider-metadata fields, opaque to
the truncation logic. -/
structure JsonResponse where
  contentField : Option String
  otherFields : List (String × String)
deriving DecidableEq

/-- The processed output of `_process_response`: a markdown string or a
structured JSON body. -/
inductive ProcessedOut where
  | md (s : String)
  | js (j : JsonResponse)
deriving DecidableEq

/-- jina_fetch.py `_process_response`: for json output, truncate only the
`content` field of the parsed body (when `max_length` and the field are
truthy); otherwise truncate the raw response text. -/
def _process_response (resp_text : String) (resp_json : JsonResponse)
    (output_format : String) (max_length : Option Int) : ProcessedOut :=
  if pyLower output_format == "json" then
    .js (if pyTruthyOptInt max_length && pyTruthyOptStr resp_json.contentField then
           { resp_json with
             contentField :=
               match resp_json.contentField with
               | some c => some (_truncate_content c max_length)
               | none => none }
         else resp_json)
  else
    .md (_truncate_content resp_text max_length)

/-- Every character list starts with itself. -/
theorem charsStartWith_refl (l : List Char) : charsStartWith l l = true := by
  induction l with
  | nil => rfl
  | cons c cs ih => simp [charsStartWith, ih]

/-- A prefix match survives appending on the right of the scanned list. -/
theorem charsStartWith_append_right (p l ys : List Char)
    (h : charsStartWith p l = true) : charsStartWith p (l ++ ys) = true := by
  induction p generalizing l with
  | nil => rfl
  | cons a as ih =>
    cases l with
    | nil => simp [charsStartWith] at h
    | cons b bs =>
      simp [charsStartWith] at h
      simp [charsStartWith, h.1, ih bs h.2]

/-- The empty pattern is contained in every list. -/
theorem charsContain_nil (l : List Char) : charsContain [] l = true := by
  cases l with
  | nil => rfl
  | cons c cs => simp [charsContain, charsStartWith]

/-- Containment survives consing on the left. -/
theorem charsContain_cons (p : List Char) (c : Char) (l : List Char)
    (h : charsContain p l = true) : charsContain p (c :: l) = true := by
  simp [charsContain, h]

/-- A list contains a pattern it begins with. -/
theorem charsContain_of_startsWith (p l : List Char)
    (h : charsStartWith p l = true) : charsContain p l = true := by
  cases l with
  | nil =>
    cases p with
    | nil => rfl
    | cons a as => simp [charsStartWith] at h
  | cons c cs => simp [charsContain, h]

/-- Containment survives appending on the left. -/
theorem charsContain_append_left (xs : List Char) {p l : List Char}
    (h : charsContain p l = true) : charsContain p (xs ++ l) = true := by
  induction xs with
  | nil => simpa using h
  | cons c cs ih => exact charsContain_cons p c (cs ++ l) ih

/-- Containment survives appending on the right. -/
theorem charsContain_append_right {p l : List Char} (ys : List Char)
    (h : charsContain p l = true) : charsContain p (l ++ ys) = true := by
  induction l with
  | nil =>
    simp [charsContain] at h
    simp [h, charsContain_nil]
  | cons c cs ih =>
    simp only [charsContain, Bool.or_eq_true] at h
    rcases h with h | h
    · simp only [List.cons_append]
      exact charsContain_of_startsWith _ _
        (charsStartWith_append_right p (c :: cs) ys h)
    · simp only [List.cons_append]
      exact charsContain_cons p c (cs ++ ys) (ih h)

/-- `p ++ ys` contains `p`. -/
theorem charsContain_here (p ys : List Char) : charsContain p (p ++ ys) = true :=
  charsContain_of_startsWith p (p ++ ys)
    (charsStartWith_append_right p p ys (charsStartWith_refl p))

/-- A string contains itself. -/
theorem strContains_refl (s : String) : strContains s s = true := by
  have := charsContain_here s.data []
  simpa [strContains] using this

/-- Containment survives appending a string on the right. -/
theorem strContains_append_right (s t pat : String)
    (h : strContains s pat = true) : strContains (s ++ t) pat = true := by
  simp only [strContains, String.data_append]
  exact charsContain_append_right t.data h

/-- Containment survives appending a string on the left. -/
theorem strContains_append_left (s t pat : String)
    (h : strContains t pat = true) : strContains (s ++ t) pat = true := by
  simp only [strContains, String.data_append]
  exact charsContain_append_left s.data h

/-- `a ++ b` contains `b`. -/
theorem strContains_right_self (a b : String) : strContains (a ++ b) b = true :=
  strContains_append_left a b b (strContains_refl b)

/-- `a ++ b` contains `a`. -/
theorem strContains_left_self (a b : String) : strContains (a ++ b) a = true :=
  strContains_append_right a b a (strContains_refl a)

/-- C1: the claim says every formatted element carries a `position` field
equal to its 1-based index.  The source `_format_search_result` takes only
the raw record and returns title, url and snippet; the repository's own
tests call `_format_search_result(raw, position)` and assert
`result["position"] == position`, so the code contradicts its tests.  This
theorem evaluates the formatting step at the failing input of those tests:
the output keeps length and order, but no element has a `position` key. -/
theorem C1_formatMany_omits_position :
    formatMany [[("title", "Test Title"), ("href", "https://example.com"),
                 ("body", "Test snippet")]]
      = [[("title", "Test Title"), ("url", "https://example.com"),
          ("snippet", "Test snippet")]]
    ∧ ∀ r ∈ formatMany [[("title", "Test Title"), ("href", "https://example.com"),
                         ("body", "Test snippet")]],
        dictHasKey r "position" = false := by
  decide

/-- C3: when the primary error is the rate-limit variant, or its message
case-insensitively contains "backend", `_try_fallback_search` re-raises the
exact original error object and performs zero additional search calls
against the alternate backend, whatever the fallback attempt would have
done. -/
theorem C3_fallback_suppression (query : String) (original_error : MCPError)
    (attempt : FallbackOutcome)
    (h : original_error.kind = ErrKind.rateLimitError ∨
         strContains (pyLower original_error.message) "backend" = true) :
    _try_fallback_search query original_error attempt
      = (SearchOutcome.raises original_error, 0) := by
  rcases h with h | h
  · simp [_try_fallback_search, h]
  · by_cases hk : original_error.kind = ErrKind.rateLimitError
    · simp [_try_fallback_search, hk]
    · simp [_try_fallback_search, hk, h]

/-- Witness for C3 at a concrete rate-limit primary error. -/
theorem C3_fallback_suppression_witness :
    _try_fallback_search "test" (mkRateLimitError "Rate limited" none none none)
        (FallbackOutcome.success [])
      = (SearchOutcome.raises (mkRateLimitError "Rate limited" none none none), 0) :=
  C3_fallback_suppression "test" (mkRateLimitError "Rate limited" none none none)
    (FallbackOutcome.success []) (Or.inl (by decide))

/-- C4: a TLS/certificate-typed client exception is also a connection-typed
exception in the client hierarchy, yet `_classify_request_error` returns the
network variant with the SSL-specific guidance and never the plain
connection-refused variant, because the SSL check precedes the generic
connection-error check. -/
theorem C4_ssl_before_connection (e : RequestExc) (url : Option String)
    (h : isSSLExc e = true) :
    isConnectionExc e = true ∧
    (_classify_request_error e url).kind = ErrKind.networkError ∧
    (_classify_request_error e url).category = ErrorCategory.network ∧
    (_classify_request_error e url).guidance = fetchSSLGuidance ∧
    (_classify_request_error e url).kind ≠ ErrKind.connectionError := by
  cases e <;>
    simp_all [isSSLExc, isConnectionExc, isTimeoutExc, _classify_request_error,
      mkNetworkError]

/-- Witness for C4 at a concrete TLS-typed failure. -/
theorem C4_ssl_before_connection_witness :
    isConnectionExc (RequestExc.sslExc "certificate verify failed") = true ∧
    (_classify_request_error (RequestExc.sslExc "certificate verify failed") none).kind
      = ErrKind.networkError ∧
    (_classify_request_error (RequestExc.sslExc "certificate verify failed") none).category
      = ErrorCategory.network ∧
    (_classify_request_error (RequestExc.sslExc "certificate verify failed") none).guidance
      = fetchSSLGuidance ∧
    (_classify_request_error (RequestExc.sslExc "certificate verify failed") none).kind
      ≠ ErrKind.connectionError :=
  C4_ssl_before_connection (RequestExc.sslExc "certificate verify failed") none (by decide)

/-- C6: the search classifier is first-match-wins: whenever the lower-cased
exception text contains at least one rate-limit indicator, the result is the
rate-limit variant, whatever later-priority indicators the text also
contains. -/
theorem C6_rate_limit_wins (e : PyException) (query backend : Option String)
    (h : containsAny (pyLower e.text) rate_limit_indicators = true) :
    (_classify_search_error e query backend).kind = ErrKind.rateLimitError ∧
    (_classify_search_error e query backend).category = ErrorCategory.service ∧
    (_classify_search_error e query backend).errorCode = "RATE_LIMIT" := by
  simp [_classify_search_error, h, mkRateLimitError]

/-- Witness for C6 at a text that also contains timeout, network,
service-unavailable, backend and empty-result indicators. -/
theorem C6_rate_limit_wins_witness :
    (_classify_search_error
        ⟨true, "429 timeout connection unavailable backend no results"⟩
        none none).kind = ErrKind.rateLimitError ∧
    (_classify_search_error
        ⟨true, "429 timeout connection unavailable backend no results"⟩
        none none).category = ErrorCategory.service ∧
    (_classify_search_error
        ⟨true, "429 timeout connection unavailable backend no results"⟩
        none none).errorCode = "RATE_LIMIT" :=
  C6_rate_limit_wins ⟨true, "429 timeout connection unavailable backend no results"⟩
    none none (by decide)

set_option maxRecDepth 4096 in
/-- C2 counterexample: the claim demands the literal "both backends" in the
combined message for ANY fallback exception class, but when the fallback
raises an exception the handler does not catch as a `DDGSException`, the
raised message is the "Search failed unexpectedly" shape, which does not
contain "both backends". -/
theorem C2_counterexample :
    _try_fallback_search "q" (mkNetworkError "primary boom" none)
        (FallbackOutcome.otherFailure "weird failure")
      = (SearchOutcome.raises (mkNetworkError
          "Search failed unexpectedly. Primary error: primary boom. Fallback error: weird failure"
          (some unexpectedFallbackGuidance)), 1) ∧
    strContains
      "Search failed unexpectedly. Primary error: primary boom. Fallback error: weird failure"
      "both backends" = false := by
  decide

/-- C2 (amended): for a retry-eligible primary failure, when the fallback
attempt raises the typed `DDGSException`, `_try_fallback_search` raises a
network-category error whose message contains "both backends", the primary
message and the classified fallback message; when the fallback raises any
other exception class, it still raises a network-category error containing
the primary message and the fallback exception text, but with the
"Search failed unexpectedly" prefix instead of "both backends". -/
theorem C2_combined_failure (query t : String) (oe : MCPError)
    (h1 : oe.kind ≠ ErrKind.rateLimitError)
    (h2 : strContains (pyLower oe.message) "backend" = false) :
    (∃ e, _try_fallback_search query oe (FallbackOutcome.ddgsFailure t)
        = (SearchOutcome.raises e, 1) ∧
      e.category = ErrorCategory.network ∧
      strContains e.message "both backends" = true ∧
      strContains e.message oe.message = true ∧
      strContains e.message
        (_classify_search_error ⟨true, t⟩ (some query) (some "brave")).message = true) ∧
    (∃ e, _try_fallback_search query oe (FallbackOutcome.otherFailure t)
        = (SearchOutcome.raises e, 1) ∧
      e.category = ErrorCategory.network ∧
      strContains e.message "Search failed unexpectedly" = true ∧
      strContains e.message oe.message = true ∧
      strContains e.message t = true) := by
  constructor
  · refine ⟨mkNetworkError
        ("Search failed with both backends. Primary (duckduckgo): "
          ++ oe.message ++ ". Fallback (brave): "
          ++ (_classify_search_error ⟨true, t⟩ (some query) (some "brave")).message)
        (some bothBackendsGuidance), ?_, rfl, ?_, ?_, ?_⟩
    · simp [_try_fallback_search, h1, h2]
    · simp only [mkNetworkError]
      apply strContains_append_right
      apply strContains_append_right
      apply strContains_append_right
      decide
    · simp only [mkNetworkError]
      apply strContains_append_right
      apply strContains_append_right
      exact strContains_right_self _ oe.message
    · simp only [mkNetworkError]
      exact strContains_right_self _ _
  · refine ⟨mkNetworkError
        ("Search failed unexpectedly. Primary error: " ++ oe.message
          ++ ". Fallback error: " ++ t)
        (some unexpectedFallbackGuidance), ?_, rfl, ?_, ?_, ?_⟩
    · simp [_try_fallback_search, h1, h2]
    · simp only [mkNetworkError]
      apply strContains_append_right
      apply strContains_append_right
      apply strContains_append_right
      decide
    · simp only [mkNetworkError]
      apply strContains_append_right
      apply strContains_append_right
      exact strContains_right_self _ oe.message
    · simp only [mkNetworkError]
      exact strContains_right_self _ _

/-- Witness for C2 (amended) at a concrete retry-eligible primary error and
a concrete fallback failure text. -/
theorem C2_combined_failure_witness :
    (∃ e, _try_fallback_search "q" (mkNetworkError "primary down" none)
        (FallbackOutcome.ddgsFailure "boom")
        = (SearchOutcome.raises e, 1) ∧
      e.category = ErrorCategory.network ∧
      strContains e.message "both backends" = true ∧
      strContains e.message (mkNetworkError "primary down" none).message = true ∧
      strContains e.message
        (_classify_search_error ⟨true, "boom"⟩ (some "q") (some "brave")).message = true) ∧
    (∃ e, _try_fallback_search "q" (mkNetworkError "primary down" none)
        (FallbackOutcome.otherFailure "boom")
        = (SearchOutcome.raises e, 1) ∧
      e.category = ErrorCategory.network ∧
      strContains e.message "Search failed unexpectedly" = true ∧
      strContains e.message (mkNetworkError "primary down" none).message = true ∧
      strContains e.message "boom" = true) :=
  C2_combined_failure "q" "boom" (mkNetworkError "primary down" none)
    (by decide) (by decide)


/-- Some indicator set of the search classifier matches the (lower-cased)
exception text. -/
def searchAnyIndicatorHit (s : String) : Bool :=
  containsAny s rate_limit_indicators || containsAny s timeout_indicators ||
  containsAny s network_indicators || containsAny s service_indicators ||
  containsAny s backend_indicators || containsAny s empty_indicators

/-- C5: both classifiers are total functions into the taxonomy (they are
Lean functions, so they cannot raise); every result is in the documented
network or service category, and an exception matching none of the
enumerated keyword sets (search) or none of the enumerated exception types
(fetch) classifies to the network variant whose message embeds the original
exception text. -/
theorem C5_classifier_totality :
    (∀ (e : PyException) (query backend : Option String),
      ((_classify_search_error e query backend).category = ErrorCategory.network ∨
       (_classify_search_error e query backend).category = ErrorCategory.service) ∧
      (searchAnyIndicatorHit (pyLower e.text) = false →
        (_classify_search_error e query backend).kind = ErrKind.networkError ∧
        (_classify_search_error e query backend).category = ErrorCategory.network ∧
        strContains (_classify_search_error e query backend).message e.text = true)) ∧
    (∀ (e : RequestExc) (url : Option String),
      ((_classify_request_error e url).category = ErrorCategory.network ∨
       (_classify_request_error e url).category = ErrorCategory.service) ∧
      (isTimeoutExc e = false → isConnectionExc e = false → isHTTPExc e = false →
        (_classify_request_error e url).kind = ErrKind.networkError ∧
        (_classify_request_error e url).category = ErrorCategory.network ∧
        strContains (_classify_request_error e url).message e.text = true)) := by
  constructor
  · intro e query backend
    constructor
    · simp only [_classify_search_error]
      repeat' split
      all_goals
        simp [mkRateLimitError, mkTimeoutError, mkNetworkError,
          mkServiceUnavailableError]
    · intro hns
      simp only [searchAnyIndicatorHit, Bool.or_eq_false_iff] at hns
      obtain ⟨⟨⟨⟨⟨h1, h2⟩, h3⟩, h4⟩, h5⟩, h6⟩ := hns
      simp only [_classify_search_error, h1, h2, h3, h4, h5, h6,
        Bool.false_eq_true, if_false, mkNetworkError]
      exact ⟨trivial, trivial, strContains_right_self _ _⟩
  · intro e url
    constructor
    · simp only [_classify_request_error]
      repeat' split
      all_goals
        simp [mkTimeoutError, mkNetworkError, mkDNSError, mkConnectionError,
          mkRateLimitError, mkServiceUnavailableError, mkHTTPError]
    · intro ht hc hh
      cases e with
      | timeoutExc t => simp [isTimeoutExc] at ht
      | sslExc t => simp [isConnectionExc] at hc
      | connectionExc t => simp [isConnectionExc] at hc
      | httpExc t r => simp [isHTTPExc] at hh
      | otherExc t =>
        simp only [_classify_request_error, isTimeoutExc, isSSLExc,
          isConnectionExc, isHTTPExc, Bool.false_eq_true, if_false,
          mkNetworkError, RequestExc.text]
        exact ⟨trivial, trivial, strContains_right_self _ _⟩

/-- Witness for C5 at a search exception text matching no indicator set and
a fetch exception of an unenumerated type. -/
theorem C5_classifier_totality_witness :
    (_classify_search_error ⟨true, "zzz@@"⟩ none none).kind = ErrKind.networkError ∧
    (_classify_search_error ⟨true, "zzz@@"⟩ none none).category = ErrorCategory.network ∧
    strContains (_classify_search_error ⟨true, "zzz@@"⟩ none none).message "zzz@@" = true ∧
    (_classify_request_error (RequestExc.otherExc "mystery@@") none).kind = ErrKind.networkError ∧
    (_classify_request_error (RequestExc.otherExc "mystery@@") none).category = ErrorCategory.network ∧
    strContains (_classify_request_error (RequestExc.otherExc "mystery@@") none).message
      "mystery@@" = true := by
  have h := C5_classifier_totality
  have hs := (h.1 ⟨true, "zzz@@"⟩ none none).2 (by decide)
  have hf := (h.2 (RequestExc.otherExc "mystery@@") none).2 (by decide) (by decide) (by decide)
  exact ⟨hs.1, hs.2.1, hs.2.2, hf.1, hf.2.1, hf.2.2⟩

/-- C7: an HTTP-error exception whose response has status 429 classifies to
the rate-limit variant with status_code 429; a Retry-After header that
parses as an integer populates retry_after with that value; a header that
does not parse leaves retry_after at None while the rate-limit variant is
still returned (no exception escapes); an absent header also leaves
retry_after at None. -/
theorem C7_retry_after (t : String) (url : Option String)
    (headers : List (String × String)) :
    (_classify_request_error (RequestExc.httpExc t (some ⟨429, headers⟩)) url).kind
      = ErrKind.rateLimitError ∧
    (_classify_request_error (RequestExc.httpExc t (some ⟨429, headers⟩)) url).category
      = ErrorCategory.service ∧
    (_classify_request_error (RequestExc.httpExc t (some ⟨429, headers⟩)) url).statusCode
      = some 429 ∧
    (∀ h n, headersGet headers "Retry-After" = some h → pyIntOfStr h = some n →
      (_classify_request_error (RequestExc.httpExc t (some ⟨429, headers⟩)) url).retryAfter
        = some n) ∧
    (∀ h, headersGet headers "Retry-After" = some h → pyIntOfStr h = none →
      (_classify_request_error (RequestExc.httpExc t (some ⟨429, headers⟩)) url).retryAfter
        = none) ∧
    (headersGet headers "Retry-After" = none →
      (_classify_request_error (RequestExc.httpExc t (some ⟨429, headers⟩)) url).retryAfter
        = none) := by
  refine ⟨?_, ?_, ?_, ?_, ?_, ?_⟩
  · simp [_classify_request_error, isTimeoutExc, isSSLExc, isConnectionExc,
      isHTTPExc, responseOf, mkRateLimitError]
  · simp [_classify_request_error, isTimeoutExc, isSSLExc, isConnectionExc,
      isHTTPExc, responseOf, mkRateLimitError]
  · simp [_classify_request_error, isTimeoutExc, isSSLExc, isConnectionExc,
      isHTTPExc, responseOf, mkRateLimitError]
  · intro h n hh hp
    by_cases hB : h = ""
    · subst hB
      simp [pyIntOfStr, pyTrim, digitsVal] at hp
    · simp [_classify_request_error, isTimeoutExc, isSSLExc, isConnectionExc,
        isHTTPExc, responseOf, mkRateLimitError, hh, hB, hp]
  · intro h hh hp
    by_cases hB : h = ""
    · subst hB
      simp [_classify_request_error, isTimeoutExc, isSSLExc, isConnectionExc,
        isHTTPExc, responseOf, mkRateLimitError, hh]
    · simp [_classify_request_error, isTimeoutExc, isSSLExc, isConnectionExc,
        isHTTPExc, responseOf, mkRateLimitError, hh, hB, hp]
  · intro hh
    simp [_classify_request_error, isTimeoutExc, isSSLExc, isConnectionExc,
      isHTTPExc, responseOf, mkRateLimitError, hh]

/-- Witness for C7: header "60" yields retry_after 60, header
"not-a-number" yields retry_after None with the rate-limit variant. -/
theorem C7_retry_after_witness :
    (_classify_request_error
        (RequestExc.httpExc "429 Client Error"
          (some ⟨429, [("Retry-After", "60")]⟩)) none).kind
      = ErrKind.rateLimitError ∧
    (_classify_request_error
        (RequestExc.httpExc "429 Client Error"
          (some ⟨429, [("Retry-After", "60")]⟩)) none).retryAfter
      = some 60 ∧
    (_classify_request_error
        (RequestExc.httpExc "429 Client Error"
          (some ⟨429, [("Retry-After", "not-a-number")]⟩)) none).kind
      = ErrKind.rateLimitError ∧
    (_classify_request_error
        (RequestExc.httpExc "429 Client Error"
          (some ⟨429, [("Retry-After", "not-a-number")]⟩)) none).retryAfter
      = none := by
  have h1 := C7_retry_after "429 Client Error" none [("Retry-After", "60")]
  have h2 := C7_retry_after "429 Client Error" none [("Retry-After", "not-a-number")]
  exact ⟨h1.1, h1.2.2.2.1 "60" 60 (by decide) (by decide),
    h2.1, h2.2.2.2.2.1 "not-a-number" (by decide) (by decide)⟩

/-- The spec-side reading of a valid query: a non-empty string value. -/
def isNonEmptyString : PyVal → Bool
  | .pyStr s => s != ""
  | _ => false

/-- The spec-side reading of a valid max_results: a positive integer. -/
def isPositiveInt : PyVal → Bool
  | .pyInt n => decide (0 < n)
  | _ => false

/-- C8: `_validate_search_params` raises a validation-category error exactly
when the query is not a non-empty string or max_results is not a positive
integer; any unrecognized safesearch value is normalized to "moderate"
without failing, and a recognized value is returned unchanged. -/
theorem C8_validate_search_params (query max_results : PyVal) (safesearch : String) :
    ((∃ e, _validate_search_params query max_results safesearch = Except.error e) ↔
      (isNonEmptyString query = false ∨ isPositiveInt max_results = false)) ∧
    (∀ e, _validate_search_params query max_results safesearch = Except.error e →
      e.kind = ErrKind.validationError ∧ e.category = ErrorCategory.validation) ∧
    (isNonEmptyString query = true → isPositiveInt max_results = true →
      (valid_safesearch.contains safesearch = false →
        _validate_search_params query max_results safesearch = Except.ok "moderate") ∧
      (valid_safesearch.contains safesearch = true →
        _validate_search_params query max_results safesearch = Except.ok safesearch)) := by
  refine ⟨?_, ?_, ?_⟩ <;>
    rcases query with _ | qs | qn <;>
    rcases max_results with _ | ms | mn <;>
    simp only [_validate_search_params, isNonEmptyString, isPositiveInt,
      pyTruthy, isPyStr, isPyInt] <;>
    repeat' split <;>
    simp_all [mkValidationError] <;>
    try omega

/-- Witness for C8: a valid query and count with an unrecognized safesearch
value normalize to "moderate", and with a recognized one pass through. -/
theorem C8_validate_search_params_witness :
    _validate_search_params (PyVal.pyStr "hello") (PyVal.pyInt 5) "weird"
      = Except.ok "moderate" ∧
    _validate_search_params (PyVal.pyStr "hello") (PyVal.pyInt 5) "off"
      = Except.ok "off" := by
  have h1 := (C8_validate_search_params (PyVal.pyStr "hello") (PyVal.pyInt 5)
    "weird").2.2 (by decide) (by decide)
  have h2 := (C8_validate_search_params (PyVal.pyStr "hello") (PyVal.pyInt 5)
    "off").2.2 (by decide) (by decide)
  exact ⟨h1.1 (by decide), h2.2 (by decide)⟩

/-- The validation phase raised a validation-category error (and therefore
the network call was never reached). -/
def phaseIsValidationRaise : ToolPhase → Bool
  | .raiseValidation e =>
    e.kind == ErrKind.validationError && e.category == ErrorCategory.validation
  | .callSearch _ _ => false

/-- C9 counterexample: the claim includes the empty string among the
output_format values that must fail validation, but the tool normalizes a
falsy output_format to "json" (`output_format.lower() if output_format else
"json"`) and proceeds to the search call without raising. -/
theorem C9_counterexample :
    duckduckgo_search_entry (PyVal.pyStr "python") (PyVal.pyInt 5) ""
      = ToolPhase.callSearch 5 "json" := by
  decide

/-- C9 (amended): for every NON-EMPTY output_format that is not
case-insensitively "json" or "text", the public search tool raises a
validation-category error before the network call (whatever the query and
max_results arguments were); the empty string is instead silently
normalized to "json". -/
theorem C9_output_format_validation (query max_results : PyVal)
    (output_format : String)
    (hne : (output_format == "") = false)
    (hj : (pyLower output_format == "json") = false)
    (ht : (pyLower output_format == "text") = false) :
    phaseIsValidationRaise
      (duckduckgo_search_entry query max_results output_format) = true := by
  cases hq : pyTruthy query with
  | false =>
    simp [duckduckgo_search_entry, hq, phaseIsValidationRaise, mkValidationError]
  | true =>
    rcases max_results with _ | ms | mn
    · simp [duckduckgo_search_entry, hq, hne, phaseIsValidationRaise,
        mkValidationError]
    · cases hp : pyIntOfStr ms with
      | none =>
        simp [duckduckgo_search_entry, hq, hp, hne, phaseIsValidationRaise,
          mkValidationError]
      | some k =>
        by_cases hk : k ≤ 0
        · simp [duckduckgo_search_entry, hq, hp, hk, hne,
            phaseIsValidationRaise, mkValidationError]
        · simp [duckduckgo_search_entry, hq, hp, hk, hne, hj, ht,
            phaseIsValidationRaise, mkValidationError]
    · by_cases hk : mn ≤ 0
      · simp [duckduckgo_search_entry, hq, hk, hne, phaseIsValidationRaise,
          mkValidationError]
      · simp [duckduckgo_search_entry, hq, hk, hne, hj, ht,
          phaseIsValidationRaise, mkValidationError]

/-- Witness for C9 (amended) at a concrete unsupported format. -/
theorem C9_output_format_validation_witness :
    phaseIsValidationRaise
      (duckduckgo_search_entry (PyVal.pyStr "python") (PyVal.pyInt 5) "xml")
      = true :=
  C9_output_format_validation (PyVal.pyStr "python") (PyVal.pyInt 5) "xml"
    (by decide) (by decide) (by decide)

/-- C10 counterexample: the claim covers "every set maxLength", but at the
set value 0 (falsy in Python) the source never truncates: for content "a"
(length 1 > 0) the claim demands the first 0 characters plus the suffix,
while the code returns the content unchanged. -/
theorem C10_counterexample :
    _truncate_content "a" (some 0) = "a" ∧
    ((("a" : String).length : Int) > 0) ∧
    ("a" : String)
      ≠ String.mk (("a" : String).data.take (0 : Int).toNat)
          ++ "... (content truncated)" := by
  decide

/-- C10 (amended): for every set POSITIVE maxLength, `_truncate_content`
returns the first maxLength characters plus the literal suffix when the
content is longer, and the content unchanged otherwise; on the fetch path,
markdown output truncates the response text, and json output truncates only
the `content` field, leaving every other field unchanged. -/
theorem C10_truncation (content : String) (n : Int) (hn : 0 < n) :
    ((content.length : Int) > n →
      _truncate_content content (some n)
        = String.mk (content.data.take n.toNat) ++ "... (content truncated)") ∧
    ((content.length : Int) ≤ n → _truncate_content content (some n) = content) ∧
    (∀ (resp_text : String) (j : JsonResponse),
      _process_response resp_text j "markdown" (some n)
        = ProcessedOut.md (_truncate_content resp_text (some n)) ∧
      ∃ j2, _process_response resp_text j "json" (some n) = ProcessedOut.js j2 ∧
        j2.otherFields = j.otherFields ∧
        (j2.contentField = j.contentField ∨
         ∃ c, j.contentField = some c ∧
           j2.contentField = some (_truncate_content c (some n)))) := by
  have hnz : (n != 0) = true := by simp; omega
  refine ⟨?_, ?_, ?_⟩
  · intro h
    simp [_truncate_content, pyTruthyOptInt, pySliceTo, hnz, h, hn.le]
  · intro h
    have hng : ¬ ((content.length : Int) > n) := not_lt.mpr h
    simp [_truncate_content, pyTruthyOptInt, hng]
  · intro resp_text j
    have hjson : pyLower "json" = "json" := by decide
    constructor
    · rfl
    · cases hcf : j.contentField with
      | none =>
        refine ⟨j, ?_, rfl, Or.inl hcf⟩
        simp [_process_response, pyTruthyOptStr, hcf, hjson]
      | some c =>
        by_cases hc : c = ""
        · subst hc
          refine ⟨j, ?_, rfl, Or.inl hcf⟩
          simp [_process_response, pyTruthyOptStr, hcf, hjson]
        · refine ⟨{ j with contentField := some (_truncate_content c (some n)) },
            ?_, rfl, Or.inr ⟨c, rfl, rfl⟩⟩
          simp [_process_response, pyTruthyOptStr, pyTruthyOptInt, hcf, hc,
            hnz, hjson]

/-- Witness for C10 (amended) at a long and a short content string. -/
theorem C10_truncation_witness :
    _truncate_content "hello world" (some 5)
      = String.mk (("hello world" : String).data.take (5 : Int).toNat)
          ++ "... (content truncated)" ∧
    _truncate_content "hi" (some 5) = "hi" := by
  have h1 := (C10_truncation "hello world" 5 (by decide)).1 (by decide)
  have h2 := (C10_truncation "hi" 5 (by decide)).2.1 (by decide)
  exact ⟨h1, h2⟩
